import Mathlib

/-!
Shallow embedding of the stub Qt backend (src/desktop/qt_stub.cpp): the
in-memory widget registry, the widget constructors and mutators of the
C ABI surface, and the simulated event loop.

Modelling conventions:
- A C handle (a Widget pointer that may be NULL) is an Option Nat holding
  the widget's id; none models the null pointer. Ids issued by make_widget
  are unique in every reachable state (all registry ids are below next_id),
  so a pointer write through a handle is modelled as updating the registry
  entry carrying that id.
- A C string argument (a const char pointer that may be NULL) is an
  Option String; none models the null pointer.
- The trace/dump calls write to stderr only and touch no widget state, so
  they are omitted; qt_widget_show, which only traces, leaves the state
  unchanged.
- make_widget runs its whole body under the mutex g_mu, hence one
  allocation is one atomic step; a concurrent execution is an interleaving
  of whole allocations (see Interleaving below).
-/

namespace QtStub

/-- Widget kinds, from enum class Kind { Window, Button, Generic }. -/
inductive Kind where
  | Window
  | Button
  | Generic
deriving DecidableEq, Repr

/-- The struct Widget of qt_stub.cpp. The C parent field is a non-owning
Widget pointer; it is modelled as the handle stored by set_parent. -/
structure Widget where
  kind : Kind := Kind.Generic
  title : String := ""
  label : String := ""
  width : Int := 0
  height : Int := 0
  parent : Option Nat := none
  id : Nat := 0
deriving DecidableEq, Repr

/-- The process-wide mutable state of the stub backend: the identity
counter next_id (starts at 1), the registry vector, and the event-loop
flag g_running (starts false). -/
structure State where
  next_id : Nat := 1
  registry : List Widget := []
  running : Bool := false
deriving DecidableEq, Repr

/-- The state at process start. -/
def initState : State := {}

/-- A write through a widget pointer: update the registry entry carrying
the given id. Faithful to the C pointer write in every reachable state,
where registry ids are unique. -/
def writeWidget (s : State) (wid : Nat) (f : Widget → Widget) : State :=
  { s with registry := s.registry.map (fun w => if w.id = wid then f w else w) }

/-- make_widget: under the lock, allocate a widget of the given kind with
the next identity and append it to the registry. -/
def make_widget (k : Kind) (s : State) : Widget × State :=
  let w : Widget := { kind := k, id := s.next_id }
  (w, { s with next_id := s.next_id + 1, registry := s.registry ++ [w] })

/-- The C idiom str ? str : dflt for a possibly-null string argument. -/
def cstr (str : Option String) (dflt : String) : String :=
  match str with
  | some t => t
  | none => dflt

/-- qt_window_new: allocate a Window widget, then set title (empty when the
argument is null), width (800 when w is not positive) and height (600 when
h is not positive) through the returned pointer; return the handle. -/
def qt_window_new (title : Option String) (w h : Int) (s : State) :
    Option Nat × State :=
  let r := make_widget Kind.Window s
  let s2 := writeWidget r.2 r.1.id (fun x =>
    { x with
      title := cstr title ""
      width := if w > 0 then w else 800
      height := if h > 0 then h else 600 })
  (some r.1.id, s2)

/-- qt_button_new: allocate a Button widget, then set its label through the
returned pointer; a null label defaults to the placeholder string
Button (the C code tests the pointer only, not emptiness). -/
def qt_button_new (label : Option String) (s : State) : Option Nat × State :=
  let r := make_widget Kind.Button s
  let s2 := writeWidget r.2 r.1.id (fun x =>
    { x with label := cstr label "Button" })
  (some r.1.id, s2)

/-- qt_widget_set_parent: no-op on a null child, otherwise store the parent
handle in the child widget, unconditionally. -/
def qt_widget_set_parent (child parent : Option Nat) (s : State) : State :=
  match child with
  | none => s
  | some cid => writeWidget s cid (fun c => { c with parent := parent })

/-- qt_widget_show: traces only (a null handle is traced as ignored); no
widget state is touched. -/
def qt_widget_show (widget : Option Nat) (s : State) : State :=
  match widget with
  | none => s
  | some _ => s

/-- qt_widget_set_title: no-op on a null handle, otherwise set the title
field; a null text stores the empty string. -/
def qt_widget_set_title (widget : Option Nat) (title : Option String)
    (s : State) : State :=
  match widget with
  | none => s
  | some wid => writeWidget s wid (fun w => { w with title := cstr title "" })

/-- Registry lookup by id (spec section 4.2): the first widget carrying the
id, or none when that id was never issued. -/
def lookup (s : State) (wid : Nat) : Option Widget :=
  s.registry.find? (fun w => w.id == wid)

/-- qt_main_quit: store false into g_running, unconditionally. -/
def qt_main_quit (s : State) : State := { s with running := false }

/-- The first action of qt_main: store true into g_running. -/
def qt_main_enter (s : State) : State := { s with running := true }

/-- The run flag as seen by the polling loop of qt_main when another thread
calls qt_main_quit at time quitStep: true (set by qt_main on entry) at
every poll before quitStep, false from quitStep on. -/
def runningFlag (quitStep t : Nat) : Bool := t < quitStep

/-- The polling loop of qt_main, observed at poll instants t, t+1, ...:
while the flag reads true, sleep one interval and poll again; once it reads
false, return 0. With fuel polls available, none means the call is still
blocked after fuel polls. -/
def qt_main_loop (quitStep : Nat) : Nat → Nat → Option Int
  | 0, _ => none
  | fuel + 1, t =>
    if runningFlag quitStep t then qt_main_loop quitStep fuel (t + 1)
    else some 0

/-- The widget a qt_window_new call leaves in the registry when the counter
stood at n: the make_widget defaults overwritten with title, width and
height as the C body computes them. -/
def windowWidget (title : Option String) (w h : Int) (n : Nat) : Widget :=
  { kind := Kind.Window, title := cstr title "",
    width := if w > 0 then w else 800,
    height := if h > 0 then h else 600, id := n }

/-- The widget a qt_button_new call leaves in the registry when the counter
stood at n. -/
def buttonWidget (label : Option String) (n : Nat) : Widget :=
  { kind := Kind.Button, label := cstr label "Button", id := n }

/-- One widget-creating call of the C ABI. -/
inductive Op where
  | window (title : Option String) (w h : Int)
  | button (label : Option String)

/-- The state transformer of one creating call. -/
def applyOp (s : State) (op : Op) : State :=
  match op with
  | Op.window t w h => (qt_window_new t w h s).2
  | Op.button l => (qt_button_new l s).2

/-- Run a sequence of creating calls. -/
def runOps (ops : List Op) (s : State) : State := ops.foldl applyOp s

/-- Every id in the registry is below the counter, so the next id is fresh.
Holds in every reachable state. -/
def Fresh (s : State) : Prop := ∀ w ∈ s.registry, w.id < s.next_id

instance (s : State) : Decidable (Fresh s) := by
  unfold Fresh; infer_instance

/-- A two-way interleaving of event sequences, each sequence keeping its
relative order. -/
inductive Merge : List Op → List Op → List Op → Prop where
  | nil : Merge [] [] []
  | left {a l r m} : Merge l r m → Merge (a :: l) r (a :: m)
  | right {a l r m} : Merge l r m → Merge l (a :: r) (a :: m)

/-- An interleaving of the call sequences of any number of threads: the
empty schedule for no threads, and otherwise a merge of the first thread
into an interleaving of the rest. Allocation granularity is one whole
make_widget call, which the mutex g_mu makes atomic. -/
inductive Interleaving : List (List Op) → List Op → Prop where
  | nil : Interleaving [] []
  | cons {t ts m m'} : Interleaving ts m → Merge t m m' →
      Interleaving (t :: ts) m'

/-! Helper lemmas shared by the claim theorems. -/

/-- A pointer write aimed at an id above every id in the list leaves the
list unchanged. -/
theorem map_write_of_lt {l : List Widget} {n : Nat} {f : Widget → Widget}
    (h : ∀ w ∈ l, w.id < n) :
    l.map (fun w => if w.id = n then f w else w) = l := by
  induction l with
  | nil => rfl
  | cons a l ih =>
    have ha : a.id < n := h a (List.mem_cons_self a l)
    simp only [List.map_cons, if_neg (Nat.ne_of_lt ha),
      ih (fun w hw => h w (List.mem_cons_of_mem a hw))]

/-- Effect of qt_window_new on a state whose registry ids are all below the
counter: the finished window is appended, the handle is its id, the counter
advances by one and the run flag is untouched. -/
theorem qt_window_new_spec {s : State} (hs : Fresh s) (title : Option String)
    (w h : Int) :
    (qt_window_new title w h s).2.registry
        = s.registry ++ [windowWidget title w h s.next_id] ∧
    (qt_window_new title w h s).1 = some s.next_id ∧
    (qt_window_new title w h s).2.next_id = s.next_id + 1 ∧
    (qt_window_new title w h s).2.running = s.running := by
  refine ⟨?_, rfl, rfl, rfl⟩
  simp only [qt_window_new, make_widget, writeWidget, windowWidget,
    List.map_append, map_write_of_lt hs, List.map_cons, List.map_nil,
    if_pos rfl, if_true]

/-- Effect of qt_button_new on a state whose registry ids are all below the
counter. -/
theorem qt_button_new_spec {s : State} (hs : Fresh s) (label : Option String) :
    (qt_button_new label s).2.registry
        = s.registry ++ [buttonWidget label s.next_id] ∧
    (qt_button_new label s).1 = some s.next_id ∧
    (qt_button_new label s).2.next_id = s.next_id + 1 ∧
    (qt_button_new label s).2.running = s.running := by
  refine ⟨?_, rfl, rfl, rfl⟩
  simp only [qt_button_new, make_widget, writeWidget, buttonWidget,
    List.map_append, map_write_of_lt hs, List.map_cons, List.map_nil,
    if_pos rfl, if_true]

/-- Every creating call appends exactly one widget, carrying the old
counter as its id, and advances the counter. -/
theorem applyOp_spec {s : State} (hs : Fresh s) (op : Op) :
    ∃ w : Widget, (applyOp s op).registry = s.registry ++ [w] ∧
      w.id = s.next_id ∧ (applyOp s op).next_id = s.next_id + 1 := by
  cases op with
  | window t w h =>
    exact ⟨windowWidget t w h s.next_id, (qt_window_new_spec hs t w h).1, rfl,
      (qt_window_new_spec hs t w h).2.2.1⟩
  | button l =>
    exact ⟨buttonWidget l s.next_id, (qt_button_new_spec hs l).1, rfl,
      (qt_button_new_spec hs l).2.2.1⟩

/-- Freshness is preserved by every creating call. -/
theorem fresh_applyOp {s : State} (hs : Fresh s) (op : Op) :
    Fresh (applyOp s op) := by
  obtain ⟨w, hreg, hid, hnext⟩ := applyOp_spec hs op
  intro x hx
  rw [hreg] at hx
  rw [hnext]
  rcases List.mem_append.mp hx with hx | hx
  · exact Nat.lt_succ_of_lt (hs x hx)
  · rw [List.mem_singleton.mp hx, hid]
    exact Nat.lt_succ_self _

/-- Running a sequence of creating calls from a fresh state appends widgets
whose ids are exactly the next ids in order, advances the counter by the
number of calls, and preserves freshness. -/
theorem runOps_spec (ops : List Op) :
    ∀ s : State, Fresh s →
      (runOps ops s).registry.map Widget.id
          = s.registry.map Widget.id ++ List.range' s.next_id ops.length ∧
      (runOps ops s).next_id = s.next_id + ops.length ∧
      Fresh (runOps ops s) := by
  induction ops with
  | nil => intro s hs; simpa [runOps] using hs
  | cons op ops ih =>
    intro s hs
    obtain ⟨w, hreg, hid, hnext⟩ := applyOp_spec hs op
    have hf := fresh_applyOp hs op
    have hrun : runOps (op :: ops) s = runOps ops (applyOp s op) := rfl
    obtain ⟨ih1, ih2, ih3⟩ := ih (applyOp s op) hf
    refine ⟨?_, ?_, hrun ▸ ih3⟩
    · rw [hrun, ih1, hreg, hnext, List.map_append, List.map_cons, List.map_nil,
        hid, List.length_cons, List.range'_succ, List.append_assoc]
      rfl
    · rw [hrun, ih2, hnext, List.length_cons]
      omega

/-- Mem of the image of a pointer write: the written widget is in the new
registry whenever the original was in the old one. -/
theorem mem_write {s : State} {w : Widget} {wid : Nat} {f : Widget → Widget}
    (hw : w ∈ s.registry) (hid : w.id = wid) :
    f w ∈ (writeWidget s wid f).registry := by
  have h2 := List.mem_map_of_mem (fun x => if x.id = wid then f x else x) hw
  simpa [writeWidget, hid] using h2

/-- The polling loop is still blocked after fuel polls when the quit
request only arrives later. -/
theorem qt_main_loop_blocked (q : Nat) :
    ∀ (fuel t : Nat), t + fuel ≤ q → qt_main_loop q fuel t = none := by
  intro fuel
  induction fuel with
  | zero => intro t _; rfl
  | succ fuel ih =>
    intro t ht
    have hlt : t < q := by omega
    simp only [qt_main_loop, runningFlag]
    rw [if_pos (decide_eq_true hlt)]
    exact ih (t + 1) (by omega)

/-- The polling loop returns 0 as soon as a poll happens at or after the
quit request. -/
theorem qt_main_loop_returns (q : Nat) :
    ∀ (fuel t : Nat), 0 < fuel → q < t + fuel → qt_main_loop q fuel t = some 0 := by
  intro fuel
  induction fuel with
  | zero => intro t h0 _; exact absurd h0 (Nat.lt_irrefl 0)
  | succ fuel ih =>
    intro t _ hq
    by_cases hlt : t < q
    · have h0 : 0 < fuel := by omega
      simp only [qt_main_loop, runningFlag]
      rw [if_pos (decide_eq_true hlt)]
      exact ih (t + 1) h0 (by omega)
    · simp only [qt_main_loop, runningFlag]
      rw [if_neg (by simpa using hlt)]

/-- A merge of two sequences has the two lengths summed. -/
theorem merge_length {l r m : List Op} (h : Merge l r m) :
    m.length = l.length + r.length := by
  induction h with
  | nil => rfl
  | left _ ih => simp [ih]; omega
  | right _ ih => simp [ih]; omega

/-- An interleaving of the threads' sequences has the total length. -/
theorem interleaving_length {ts : List (List Op)} {m : List Op}
    (h : Interleaving ts m) : m.length = (ts.map List.length).sum := by
  induction h with
  | nil => rfl
  | cons _ hm ih =>
    rw [merge_length hm, ih, List.map_cons, List.sum_cons]

/-! Claim theorems. -/

/-- C1: every sequence of N widget creations via qt_window_new and
qt_button_new, run sequentially from process start, assigns ids exactly
1, 2, ..., N in creation order: the counter starts at 1 and ends at N + 1,
no id is reused, and each issued id is carried by exactly one widget,
appended to the registry in insertion order. -/
theorem creation_ids_one_to_N (ops : List Op) :
    (runOps ops initState).registry.map Widget.id
        = List.range' 1 ops.length ∧
    (runOps ops initState).next_id = ops.length + 1 ∧
    ((runOps ops initState).registry.map Widget.id).Nodup := by
  have hfresh : Fresh initState := fun w hw => absurd hw (List.not_mem_nil w)
  obtain ⟨h1, h2, _⟩ := runOps_spec ops initState hfresh
  have e1 : initState.registry.map Widget.id = [] := rfl
  have e2 : initState.next_id = 1 := rfl
  rw [e1, e2, List.nil_append] at h1
  rw [e2] at h2
  exact ⟨h1, by omega, h1 ▸ List.nodup_range' 1 ops.length⟩

/-- C2: for every title and every pair of integers w, h, qt_window_new
returns a non-null handle to a Window-kind widget whose width is w when
w is positive and 800 otherwise, and whose height is h when h is positive
and 600 otherwise. -/
theorem window_new_size_defaults (s : State) (title : Option String)
    (w h : Int) (hs : Fresh s) :
    ∃ win : Widget,
      (qt_window_new title w h s).1 = some win.id ∧
      (qt_window_new title w h s).1 ≠ none ∧
      (qt_window_new title w h s).2.registry = s.registry ++ [win] ∧
      win.kind = Kind.Window ∧
      (w > 0 → win.width = w) ∧ (¬ w > 0 → win.width = 800) ∧
      (h > 0 → win.height = h) ∧ (¬ h > 0 → win.height = 600) := by
  obtain ⟨h1, h2, _, _⟩ := qt_window_new_spec hs title w h
  refine ⟨windowWidget title w h s.next_id, h2, by simp [h2], h1, rfl,
    ?_, ?_, ?_, ?_⟩ <;> intro hc <;> simp [windowWidget, hc]

/-- C2 witness: the theorem at the initial state with w = 0 and h = 5. -/
theorem window_new_size_defaults_witness :
    Fresh initState ∧
    ∃ win : Widget,
      (qt_window_new (some "T") 0 5 initState).1 = some win.id ∧
      (qt_window_new (some "T") 0 5 initState).1 ≠ none ∧
      (qt_window_new (some "T") 0 5 initState).2.registry
          = initState.registry ++ [win] ∧
      win.kind = Kind.Window ∧
      ((0 : Int) > 0 → win.width = 0) ∧ (¬ (0 : Int) > 0 → win.width = 800) ∧
      ((5 : Int) > 0 → win.height = 5) ∧ (¬ (5 : Int) > 0 → win.height = 600) :=
  ⟨by decide, window_new_size_defaults initState (some "T") 0 5 (by decide)⟩

/-- C3 counterexample: an empty (but non-null) label is stored verbatim,
not replaced by the placeholder, because the C code only tests the pointer
for null, never for emptiness. -/
theorem button_label_empty_cex :
    (qt_button_new (some "") initState).2.registry.map Widget.label = [""] ∧
    ¬ ((qt_button_new (some "") initState).2.registry.map Widget.label
        = ["Button"]) := by
  constructor <;> decide

/-- C3 amended: qt_button_new defaults the label to the placeholder Button
only when the label argument is absent (null); every non-null label, the
empty string included, is stored verbatim. -/
theorem button_label_null_default (s : State) (label : Option String)
    (hs : Fresh s) :
    ∃ btn : Widget,
      (qt_button_new label s).1 = some btn.id ∧
      (qt_button_new label s).2.registry = s.registry ++ [btn] ∧
      btn.kind = Kind.Button ∧
      (label = none → btn.label = "Button") ∧
      (∀ l : String, label = some l → btn.label = l) := by
  obtain ⟨h1, h2, _, _⟩ := qt_button_new_spec hs label
  refine ⟨buttonWidget label s.next_id, h2, h1, rfl, ?_, ?_⟩
  · intro hn; simp [buttonWidget, hn, cstr]
  · intro l hl; simp [buttonWidget, hl, cstr]

/-- C3 witness: the amended theorem at the initial state with a null
label. -/
theorem button_label_null_default_witness :
    Fresh initState ∧
    ∃ btn : Widget,
      (qt_button_new none initState).1 = some btn.id ∧
      (qt_button_new none initState).2.registry
          = initState.registry ++ [btn] ∧
      btn.kind = Kind.Button ∧
      ((none : Option String) = none → btn.label = "Button") ∧
      (∀ l : String, (none : Option String) = some l → btn.label = l) :=
  ⟨by decide, button_label_null_default initState none (by decide)⟩

/-- C6: on a null handle, widget_show, widget_set_title and
widget_set_parent complete without touching the state: the registry, the
counter, the run flag and every widget field are identical before and
after. -/
theorem null_handle_ops_no_op (s : State) (text : Option String)
    (parent : Option Nat) :
    qt_widget_show none s = s ∧
    qt_widget_set_title none text s = s ∧
    qt_widget_set_parent none parent s = s :=
  ⟨rfl, rfl, rfl⟩

/-- C8: construction yields a widget of the requested kind carrying a
fresh id (the counter value, not yet present in the registry), with every
other field zeroed: empty title and label, width and height 0, no parent;
the widget is appended to the registry. -/
theorem make_widget_fields (k : Kind) (s : State) (hs : Fresh s) :
    (make_widget k s).1.kind = k ∧
    (make_widget k s).1.id = s.next_id ∧
    (make_widget k s).1.id ∉ s.registry.map Widget.id ∧
    (make_widget k s).1.title = "" ∧
    (make_widget k s).1.label = "" ∧
    (make_widget k s).1.width = 0 ∧
    (make_widget k s).1.height = 0 ∧
    (make_widget k s).1.parent = none ∧
    (make_widget k s).2.registry = s.registry ++ [(make_widget k s).1] := by
  refine ⟨rfl, rfl, ?_, rfl, rfl, rfl, rfl, rfl, rfl⟩
  intro hmem
  obtain ⟨w, hw, hid⟩ := List.mem_map.mp hmem
  have hlt := hs w hw
  have hid2 : w.id = s.next_id := hid
  omega

/-- C8 witness: the theorem at the initial state for a Generic widget. -/
theorem make_widget_fields_witness :
    Fresh initState ∧
    (make_widget Kind.Generic initState).1.kind = Kind.Generic ∧
    (make_widget Kind.Generic initState).1.id = initState.next_id ∧
    (make_widget Kind.Generic initState).1.id
        ∉ initState.registry.map Widget.id ∧
    (make_widget Kind.Generic initState).1.title = "" ∧
    (make_widget Kind.Generic initState).1.label = "" ∧
    (make_widget Kind.Generic initState).1.width = 0 ∧
    (make_widget Kind.Generic initState).1.height = 0 ∧
    (make_widget Kind.Generic initState).1.parent = none ∧
    (make_widget Kind.Generic initState).2.registry
        = initState.registry ++ [(make_widget Kind.Generic initState).1] :=
  ⟨by decide, make_widget_fields Kind.Generic initState (by decide)⟩

/-- C4: after creating window W (title App, 640 by 480) and button B
(label OK), parenting B under W and retitling B to Confirm, B's stored
title field is Confirm (the text a Button conventionally shows) and B's
parent is W's identity; in general widget_set_title stores the given text
in the title field of the addressed widget. -/
theorem set_title_updates_title :
    (let r1 := qt_window_new (some "App") 640 480 initState
     let r2 := qt_button_new (some "OK") r1.2
     let s3 := qt_widget_set_parent r2.1 r1.1 r2.2
     let s4 := qt_widget_set_title r2.1 (some "Confirm") s3
     r1.1 = some 1 ∧ r2.1 = some 2 ∧
     lookup s4 2 = some { kind := Kind.Button, title := "Confirm",
                          label := "OK", width := 0, height := 0,
                          parent := some 1, id := 2 }) ∧
    ∀ (s : State) (wid : Nat) (text : String) (w : Widget),
      w ∈ s.registry → w.id = wid →
      { w with title := text }
          ∈ (qt_widget_set_title (some wid) (some text) s).registry := by
  constructor
  · decide
  · intro s wid text w hw hid
    exact mem_write hw hid

/-- C4 witness: the general conjunct applied to a one-widget registry. -/
theorem set_title_updates_title_witness :
    { (⟨Kind.Generic, "", "", 0, 0, none, 7⟩ : Widget) with title := "x" }
        ∈ (qt_widget_set_title (some 7) (some "x")
            { next_id := 8,
              registry := [⟨Kind.Generic, "", "", 0, 0, none, 7⟩] }).registry :=
  set_title_updates_title.2 _ 7 "x" _ (List.mem_singleton_self _) rfl

/-- C5: for a non-null child, widget_set_parent stores the given parent
handle in the child unconditionally, whatever widget (of any kind) or
none it designates; with parent none, the child ends up detached. -/
theorem set_parent_stores_any_parent (s : State) (cid : Nat)
    (parent : Option Nat) (w : Widget) (hw : w ∈ s.registry)
    (hid : w.id = cid) :
    { w with parent := parent }
        ∈ (qt_widget_set_parent (some cid) parent s).registry ∧
    { w with parent := none }
        ∈ (qt_widget_set_parent (some cid) none s).registry :=
  ⟨mem_write hw hid, mem_write hw hid⟩

/-- C5 witness: the theorem on a one-widget registry, attaching to handle
3 and detaching. -/
theorem set_parent_stores_any_parent_witness :
    { (⟨Kind.Window, "", "", 1, 1, none, 4⟩ : Widget) with parent := some 3 }
        ∈ (qt_widget_set_parent (some 4) (some 3)
            { next_id := 5,
              registry := [⟨Kind.Window, "", "", 1, 1, none, 4⟩] }).registry ∧
    { (⟨Kind.Window, "", "", 1, 1, none, 4⟩ : Widget) with parent := none }
        ∈ (qt_widget_set_parent (some 4) none
            { next_id := 5,
              registry := [⟨Kind.Window, "", "", 1, 1, none, 4⟩] }).registry :=
  set_parent_stores_any_parent _ 4 (some 3) _ (List.mem_singleton_self _) rfl

/-- C7: qt_main_quit on an Idle loop leaves the state unchanged and is
idempotent; a later qt_main still stores true into the run flag, its
polling loop stays blocked while the flag is set (fuel polls all before
the quit request yield no return) and returns 0 once a poll happens at or
after its own quit request. -/
theorem main_quit_idle (s : State) (hidle : s.running = false) :
    qt_main_quit s = s ∧
    qt_main_quit (qt_main_quit s) = qt_main_quit s ∧
    (qt_main_enter (qt_main_quit s)).running = true ∧
    (∀ q fuel : Nat, fuel ≤ q → qt_main_loop q fuel 0 = none) ∧
    (∀ q fuel : Nat, q < fuel → qt_main_loop q fuel 0 = some 0) := by
  refine ⟨?_, rfl, rfl, ?_, ?_⟩
  · cases s
    simp_all [qt_main_quit]
  · intro q fuel hle
    exact qt_main_loop_blocked q fuel 0 (by omega)
  · intro q fuel hlt
    exact qt_main_loop_returns q fuel 0 (by omega) (by omega)

/-- C7 witness: the theorem at the initial (Idle) state, with quit
requested at poll 5: 3 polls stay blocked, 6 polls return 0. -/
theorem main_quit_idle_witness :
    qt_main_quit initState = initState ∧
    qt_main_loop 5 3 0 = none ∧
    qt_main_loop 5 6 0 = some 0 :=
  ⟨(main_quit_idle initState rfl).1,
   (main_quit_idle initState rfl).2.2.2.1 5 3 (by decide),
   (main_quit_idle initState rfl).2.2.2.2 5 6 (by decide)⟩

/-- C9: for any number of threads each performing a sequence of
allocations, every interleaving of those sequences (one whole mutex-held
allocation being one atomic step) issues exactly as many ids as there are
allocations in total, pairwise distinct and in fact exactly
1, ..., N: no duplicate, lost or corrupted ids. -/
theorem concurrent_allocation_ids (ts : List (List Op)) (merged : List Op)
    (hi : Interleaving ts merged) :
    (runOps merged initState).registry.map Widget.id
        = List.range' 1 (ts.map List.length).sum ∧
    ((runOps merged initState).registry.map Widget.id).Nodup ∧
    (runOps merged initState).registry.length = (ts.map List.length).sum := by
  have hfresh : Fresh initState := fun w hw => absurd hw (List.not_mem_nil w)
  obtain ⟨h1, _, _⟩ := runOps_spec merged initState hfresh
  have e1 : initState.registry.map Widget.id = [] := rfl
  have e2 : initState.next_id = 1 := rfl
  rw [e1, e2, List.nil_append, interleaving_length hi] at h1
  refine ⟨h1, h1 ▸ List.nodup_range' 1 _, ?_⟩
  have hlen := congrArg List.length h1
  simpa using hlen

/-- C9 witness: two threads of one allocation each, merged so the button
allocation lands first; both ids are issued, distinct. -/
theorem concurrent_allocation_ids_witness :
    (runOps [Op.button none, Op.window none 0 0] initState).registry.map
        Widget.id = [1, 2] ∧
    ((runOps [Op.button none, Op.window none 0 0] initState).registry.map
        Widget.id).Nodup ∧
    (runOps [Op.button none, Op.window none 0 0] initState).registry.length
        = 2 := by
  have hm2 : Merge [Op.window none 0 0] [] [Op.window none 0 0] :=
    Merge.left Merge.nil
  have hi1 : Interleaving [[Op.window none 0 0]] [Op.window none 0 0] :=
    Interleaving.cons Interleaving.nil hm2
  have hm1 : Merge [Op.button none] [Op.window none 0 0]
      [Op.button none, Op.window none 0 0] :=
    Merge.left (Merge.right Merge.nil)
  have h := concurrent_allocation_ids [[Op.button none], [Op.window none 0 0]]
    [Op.button none, Op.window none 0 0] (Interleaving.cons hi1 hm1)
  simpa using h

/-- C10: widget_set_title with a null text on a non-null handle is not a
no-op: it stores the empty string in the title field (the no-op path only
applies to a null handle); likewise qt_window_new with a null title stores
the empty string, not a placeholder. -/
theorem set_title_null_text_clears (s : State) (wid : Nat) (w : Widget)
    (hw : w ∈ s.registry) (hid : w.id = wid) (wd ht : Int) (hs : Fresh s) :
    ({ w with title := "" }
        ∈ (qt_widget_set_title (some wid) none s).registry) ∧
    ∃ win : Widget,
      (qt_window_new none wd ht s).2.registry = s.registry ++ [win] ∧
      win.title = "" :=
  ⟨mem_write hw hid, windowWidget none wd ht s.next_id,
    (qt_window_new_spec hs none wd ht).1, rfl⟩

/-- C10 witness: clearing the title of a widget whose title was App. -/
theorem set_title_null_text_clears_witness :
    ({ (⟨Kind.Window, "App", "", 2, 2, none, 1⟩ : Widget) with title := "" }
        ∈ (qt_widget_set_title (some 1) none
            { next_id := 2,
              registry := [⟨Kind.Window, "App", "", 2, 2, none, 1⟩] }).registry) ∧
    ∃ win : Widget,
      (qt_window_new none 0 0
          { next_id := 2,
            registry := [⟨Kind.Window, "App", "", 2, 2, none, 1⟩] }).2.registry
        = ({ next_id := 2,
             registry := [⟨Kind.Window, "App", "", 2, 2, none, 1⟩] : State}).registry
          ++ [win] ∧
      win.title = "" :=
  set_title_null_text_clears _ 1 _ (List.mem_singleton_self _) rfl 0 0
    (by decide)

end QtStub
